import Mathlib

/-!
# KitchenMaster — verification of the conversation-state workflow engine

Shallow embedding of `backend/app/agent/kitchen_agent.py` (class
`KitchenDesignAgent`): the LangGraph state machine, its node functions
`_analyze_input`, `_ask_clarification`, `_generate_design`, `_edit_design`,
`_generate_response`, `_format_output`, the routing function `_route_action`,
and the pure specification algorithm `_generate_specs`.

Modelling conventions:
* The agent's `KitchenState` is a Python `TypedDict`; a value stored under a
  key can be absent, present holding `None`, or present holding a value.
  These three cases are modelled by `PyOpt`.  Python's `d.get(k, default)`
  returns the default only when the key is *absent* — a key present with
  value `None` yields `None`, not the default (`PyOpt.getD`).
* Python floats are modelled exactly as fractions of integers (`Frac`,
  denominator positive in every value the program builds).  Every IEEE-754
  double is such a fraction, and at all concrete inputs appearing in the
  theorems below the double computation and the exact computation agree
  (the intermediate values stay far from the decision thresholds).
* Python truthiness (`if x:`) is modelled per type: `None`, `0.0`, `""`,
  empty list and empty dict are falsy.
* The external Gemini calls (`generate_kitchen_image`, `edit_kitchen_image`,
  `GeminiReasoner`) are oracles: their structured results are parameters of
  the node functions.
* A Python `TypeError` (e.g. `None >= 0.9`) is modelled by `Except.error ()`.
-/

set_option maxRecDepth 100000

/-- A value stored under a key of a Python dict: the key may be absent,
present holding `None`, or present holding a value `a`. -/
inductive PyOpt (α : Type) where
  | missing : PyOpt α
  | null : PyOpt α
  | val (a : α) : PyOpt α
  deriving DecidableEq, Repr

namespace PyOpt

/-- Python `d.get(k)` (no default): `None` both when the key is absent and
when it holds `None`. -/
def getOpt : PyOpt α → Option α
  | .missing => none
  | .null => none
  | .val a => some a

/-- Python `d.get(k, default)`: the default only applies to an *absent* key;
a key present with value `None` yields `None`. -/
def getD : PyOpt α → α → Option α
  | .missing, d => some d
  | .null, _ => none
  | .val a, _ => some a

/-- Lift a Python value (`None` or a value) into a *present* dict entry. -/
def ofOption : Option α → PyOpt α
  | none => .null
  | some a => .val a

/-- LangGraph channel update (default `LastValue` channel): a key appearing
in the dict returned by a node overwrites the channel; an absent key leaves
the channel unchanged. -/
def merge (upd st : PyOpt α) : PyOpt α :=
  match upd with
  | .missing => st
  | u => u

end PyOpt

instance : Inhabited (PyOpt α) := ⟨.missing⟩

instance {ε α : Type} [DecidableEq ε] [DecidableEq α] : DecidableEq (Except ε α) := fun x y =>
  match x, y with
  | .error e, .error f =>
    if h : e = f then .isTrue (by rw [h]) else .isFalse (by simp [h])
  | .ok a, .ok b =>
    if h : a = b then .isTrue (by rw [h]) else .isFalse (by simp [h])
  | .error _, .ok _ => .isFalse (by simp)
  | .ok _, .error _ => .isFalse (by simp)

/-! ## Exact model of Python floats

`Frac n d` stands for the real number `n / d`.  Every value the agent builds
has `d > 0`; arithmetic is exact (no rounding), which coincides with the
IEEE-754 computation at every concrete input used in the theorems below. -/

structure Frac where
  num : ℤ
  den : ℤ
  deriving DecidableEq, Repr

namespace Frac

/-- Python `a >= b` on floats (denominators positive). -/
def ge (a b : Frac) : Bool := b.num * a.den ≤ a.num * b.den

/-- Python `a - b` on floats (exact). -/
def sub (a b : Frac) : Frac := ⟨a.num * b.den - b.num * a.den, a.den * b.den⟩

/-- Python `a / b` on floats (exact; used only with positive `b`). -/
def div (a b : Frac) : Frac := ⟨a.num * b.den, a.den * b.num⟩

/-- Python `a * k` for an integer count `k`. -/
def mulInt (a : Frac) (k : ℤ) : Frac := ⟨a.num * k, a.den⟩

/-- Python `int(a)` — truncation toward zero (`Int.tdiv` is T-division). -/
def pyInt (a : Frac) : ℤ := a.num.tdiv a.den

/-- Python float equality with `0` (for truthiness). -/
def isZero (a : Frac) : Bool := a.num = 0

end Frac

/-- The float literal `i.t` (e.g. `Frac.dec 0 9 = 0.9`). -/
def Frac.dec (i t : ℤ) : Frac := ⟨i * 10 + t, 10⟩

/-! ## Python truthiness -/

/-- Truthiness of a Python float value (`None` and `0.0` are falsy). -/
def truthyQ : Option Frac → Bool
  | none => false
  | some q => !q.isZero

/-- Truthiness of a Python string value (`None` and `""` are falsy). -/
def truthyStr : Option String → Bool
  | none => false
  | some s => s ≠ ""

/-- Truthiness of a Python list/dict value (`None` and empty are falsy). -/
def truthyList : Option (List α) → Bool
  | none => false
  | some [] => false
  | some (_ :: _) => true

/-- Truthiness of a Python bool value (`None` is falsy). -/
def truthyBool : Option Bool → Bool
  | none => false
  | some b => b

/-! ## Python dict–as–association-list helpers (string-keyed dicts) -/

/-- The value stored under key `k` (Python `d.get(k)` on a dict modelled as
an association list; dicts built by the agent have no duplicate keys). -/
def dictFind (d : List (String × α)) (k : String) : Option α :=
  (d.find? (fun kv => kv.1 = k)).map (·.2)

/-- Python `d.get(k, default)` on a string-keyed dict with string values. -/
def dictGetD (d : List (String × String)) (k dflt : String) : String :=
  (dictFind d k).getD dflt

/-- Python `base.update(upd)`: keys already in `base` keep their position and
take the value from `upd` when present there; keys only in `upd` are
appended. -/
def dictUpdate (base upd : List (String × α)) : List (String × α) :=
  base.map (fun kv => (kv.1, (dictFind upd kv.1).getD kv.2))
    ++ upd.filter (fun kv => (dictFind base kv.1).isNone)

/-! ## Rendering of Python values into f-strings -/

/-- Decimal digits of the fractional remainder `rem / den` (`0 ≤ rem < den`),
most significant first; stops at the first exact zero or after `fuel`
digits. -/
def fracDigits : ℕ → ℕ → ℕ → List ℕ
  | 0, _, _ => []
  | fuel + 1, rem, den =>
    if rem = 0 then []
    else (rem * 10 / den) :: fracDigits fuel (rem * 10 % den) den

/-- Rendering of a float into an f-string, `str(x)` in Python: always shows a
decimal point (`3.0 ↦ "3.0"`, `2.5 ↦ "2.5"`).  Faithful to CPython for floats
with a short exact decimal expansion — the only ones appearing below. -/
def floatStr (q : Frac) : String :=
  let sign := if q.num < 0 then "-" else ""
  let n := q.num.natAbs
  let d := q.den.natAbs
  let ds := fracDigits 20 (n % d) d
  let fs := if ds = [] then "0" else String.join (ds.map (fun k => toString k))
  sign ++ toString (n / d) ++ "." ++ fs

/-- Python `str(x)` for an optional float (`None ↦ "None"`). -/
def pyShowOptQ : Option Frac → String
  | none => "None"
  | some q => floatStr q

/-- Python `str(x)` for an optional string (`None ↦ "None"`, strings unquoted in
f-strings). -/
def pyShowOptStr : Option String → String
  | none => "None"
  | some s => s

/-! ## `_generate_specs`: module packing and the specification document -/

/-- Counts of the modules allocated by `_generate_specs` (kitchen_agent.py
lines 417–440): the fixed sink/cooktop/refrigerator modules are taken greedily
in that order, then storage modules fill the rest. -/
structure ModuleCounts where
  sink : ℕ
  cooktop : ℕ
  fridge : ℕ
  storage60 : ℤ
  storage40 : ℤ
  deriving DecidableEq, Repr

/-- The module-packing loop of `_generate_specs`:
```
remaining = linear_meters
if remaining >= 0.9: ... remaining -= 0.9     # sink
if remaining >= 0.6: ... remaining -= 0.6     # cooktop
if remaining >= 0.6: ... remaining -= 0.6     # refrigerator
storage_60 = int(remaining / 0.6); remaining -= storage_60 * 0.6
storage_40 = int(remaining / 0.4)
``` -/
def packModules (linear_meters : Frac) : ModuleCounts :=
  let remaining := linear_meters
  let sink : ℕ := if remaining.ge (.dec 0 9) then 1 else 0
  let remaining := if remaining.ge (.dec 0 9) then remaining.sub (.dec 0 9) else remaining
  let cooktop : ℕ := if remaining.ge (.dec 0 6) then 1 else 0
  let remaining := if remaining.ge (.dec 0 6) then remaining.sub (.dec 0 6) else remaining
  let fridge : ℕ := if remaining.ge (.dec 0 6) then 1 else 0
  let remaining := if remaining.ge (.dec 0 6) then remaining.sub (.dec 0 6) else remaining
  let storage_60 := (remaining.div (.dec 0 6)).pyInt
  let remaining := remaining.sub ((Frac.dec 0 6).mulInt storage_60)
  let storage_40 := (remaining.div (.dec 0 4)).pyInt
  { sink := sink, cooktop := cooktop, fridge := fridge,
    storage60 := storage_60, storage40 := storage_40 }

/-- The `modules` list of strings built alongside the packing (lines
422–440); entries appear in allocation order, storage lines only when the
count is positive. -/
def modulesList (c : ModuleCounts) : List String :=
  (if c.sink = 1 then ["1x Módulo fregadero (90cm)"] else [])
    ++ (if c.cooktop = 1 then ["1x Módulo estufa/parrilla (60cm)"] else [])
    ++ (if c.fridge = 1 then ["1x Módulo refrigerador (60cm)"] else [])
    ++ (if c.storage60 > 0 then [toString c.storage60 ++ "x Módulo almacenamiento (60cm)"] else [])
    ++ (if c.storage40 > 0 then [toString c.storage40 ++ "x Módulo almacenamiento (40cm)"] else [])

/-- Source `cost_ranges` (lines 453–458). -/
def cost_ranges : List (String × String) :=
  [("low", "$15,000 - $25,000 MXN"),
   ("medium", "$25,000 - $45,000 MXN"),
   ("high", "$45,000 - $80,000 MXN"),
   ("premium", "$80,000 - $150,000+ MXN")]

/-- Source `_generate_specs(linear_meters, shape, style, materials)` (lines
408–486).  `linear_meters` may be `None` when the caller's
`state.get("linear_meters", 3.0)` found the key present with value `None`;
the first use `remaining >= 0.9` then raises `TypeError`, modelled as
`Except.error ()`.  `style` is a parameter of the Python function but is not
used in the document.  The cost line reads `cost_ranges.get('medium', ...)` —
the budget tier is not an input. -/
def generate_specs (linear_meters : Option Frac) (shape : Option String)
    (style : Option String) (materials : List (String × String)) :
    Except Unit String :=
  match linear_meters with
  | none => .error ()
  | some lm =>
    let c := packModules lm
    let module_distribution :=
      String.intercalate "\n" ((modulesList c).map (fun m => "- " ++ m))
    let appliances := "- Campana extractora\n- Estufa/Parrilla 4 quemadores\n- Horno empotrable (opcional)\n- Refrigerador\n- Microondas empotrable (opcional)\n- Lavavajillas (opcional)"
    let _ := style
    .ok ("## Especificaciones Técnicas\n\n### Dimensiones\n- **Metros lineales:** "
      ++ floatStr lm
      ++ "m\n- **Configuración:** "
      ++ pyShowOptStr shape
      ++ "\n- **Altura muebles bajos:** 85 cm\n- **Altura muebles altos:** 80 cm\n- **Profundidad muebles bajos:** 60 cm\n\n### Materiales\n- **Gabinetes:** "
      ++ dictGetD materials "cabinets" "MDF lacado"
      ++ "\n- **Cubierta:** "
      ++ dictGetD materials "countertop" "Cuarzo"
      ++ "\n- **Salpicadero:** "
      ++ dictGetD materials "backsplash" "Azulejo"
      ++ "\n- **Herrajes:** Cierre suave, bisagras de 110°\n\n### Distribución de Módulos\n"
      ++ module_distribution
      ++ "\n\n### Electrodomésticos Sugeridos\n"
      ++ appliances
      ++ "\n\n### Estimación de Inversión\nRango aproximado: "
      ++ (dictFind cost_ranges "medium").getD "$30,000 - $50,000 MXN"
      ++ "\n\n*Nota: Los precios son aproximados y pueden variar según proveedor y ubicación.*")

/-! ## The conversation state (`KitchenState`, kitchen_agent.py lines 19–46)

`user_id` and `conversation_id` are carried in the Python state but never
read by any node; they are omitted.  Every field is a `PyOpt`: LangGraph
stores whatever value (including `None`) the caller or a node wrote under
the key, and `run()` (lines 509–528) initialises *every* key. -/

/-- One chat message `{role, content}`. -/
structure Msg where
  role : String
  content : String
  deriving DecidableEq, Repr

/-- A metadata value attached to an artifact (Python: float / str / int /
bool, possibly `None`). -/
inductive MetaV where
  | num (q : Option Frac)
  | str (s : Option String)
  | nat (n : ℕ)
  | bool (b : Bool)
  deriving DecidableEq, Repr

/-- An artifact dict as built by the nodes. -/
structure Artifact where
  type : String
  title : String
  content : Option String := none
  image_data : Option String := none
  metadata : List (String × MetaV) := []
  deriving DecidableEq, Repr

/-- An entry of `design_history` (lines 295–303). -/
structure HistoryEntry where
  version : ℕ
  linear_meters : Option Frac
  shape : Option String
  style : Option String
  materials : List (String × String)
  deriving DecidableEq, Repr

/-- The LangGraph state channels. -/
structure KitchenState where
  messages : PyOpt (List Msg)
  linear_meters : PyOpt Frac
  shape : PyOpt String
  style : PyOpt String
  materials : PyOpt (List (String × String))
  colors : PyOpt (List String)
  budget : PyOpt String
  current_image : PyOpt String
  design_version : PyOpt ℕ
  design_history : PyOpt (List HistoryEntry)
  action : PyOpt String
  needs_clarification : PyOpt Bool
  questions : PyOpt (List String)
  response_text : PyOpt String
  artifacts : PyOpt (List Artifact)
  error : PyOpt String
  deriving DecidableEq, Repr

/-- The partial dict a node returns; `.missing` fields are keys the node did
not include.  `messages` is never written by a node (its `operator.add`
channel is only fed by the caller). -/
structure StateUpdate where
  linear_meters : PyOpt Frac := .missing
  shape : PyOpt String := .missing
  style : PyOpt String := .missing
  materials : PyOpt (List (String × String)) := .missing
  colors : PyOpt (List String) := .missing
  budget : PyOpt String := .missing
  current_image : PyOpt String := .missing
  design_version : PyOpt ℕ := .missing
  design_history : PyOpt (List HistoryEntry) := .missing
  action : PyOpt String := .missing
  needs_clarification : PyOpt Bool := .missing
  questions : PyOpt (List String) := .missing
  response_text : PyOpt String := .missing
  artifacts : PyOpt (List Artifact) := .missing
  error : PyOpt String := .missing
  deriving DecidableEq, Repr

/-- LangGraph channel merge: each key present in the node's returned dict
overwrites the corresponding `LastValue` channel. -/
def apply_update (st : KitchenState) (u : StateUpdate) : KitchenState :=
  { messages := st.messages,
    linear_meters := u.linear_meters.merge st.linear_meters,
    shape := u.shape.merge st.shape,
    style := u.style.merge st.style,
    materials := u.materials.merge st.materials,
    colors := u.colors.merge st.colors,
    budget := u.budget.merge st.budget,
    current_image := u.current_image.merge st.current_image,
    design_version := u.design_version.merge st.design_version,
    design_history := u.design_history.merge st.design_history,
    action := u.action.merge st.action,
    needs_clarification := u.needs_clarification.merge st.needs_clarification,
    questions := u.questions.merge st.questions,
    response_text := u.response_text.merge st.response_text,
    artifacts := u.artifacts.merge st.artifacts,
    error := u.error.merge st.error }

/-! ## Oracles for the external services -/

/-- The structured record extracted by `GeminiReasoner.analyze_request`
(a parsed JSON object — each key may be absent or `null`). -/
structure Analysis where
  action : PyOpt String := .missing
  linear_meters : PyOpt Frac := .missing
  shape : PyOpt String := .missing
  style : PyOpt String := .missing
  materials : PyOpt (List (String × Option String)) := .missing
  colors : PyOpt (List String) := .missing
  budget : PyOpt String := .missing
  questions_to_ask : PyOpt (List String) := .missing
  deriving DecidableEq, Repr

/-- The dict returned by `generate_kitchen_image` / `edit_kitchen_image`
(tools.py): `{success, images, error?}`. -/
structure ImageResult where
  success : Bool
  images : List String
  error : Option String := none
  deriving DecidableEq, Repr

/-! ## Node functions -/

/-- Line 149, `if analysis.get("linear_meters"): updates["linear_meters"] = analysis["linear_meters"]`:
(line 149): the key is written only when the extracted value is truthy. -/
def upd_linear_meters (a : Analysis) : PyOpt Frac :=
  match a.linear_meters.getOpt with
  | some q => if q.isZero then .missing else .val q
  | none => .missing

/-- Pattern `if analysis.get(k): updates[k] = analysis[k]` for a string field
(lines 151–154 and 161–162): the key is written only when the extracted
value is truthy (non-`None`, non-empty). -/
def upd_str_field (x : PyOpt String) : PyOpt String :=
  match x.getOpt with
  | some s => if s = "" then .missing else .val s
  | none => .missing

/-- Lines 159–160, `if analysis.get("colors"): updates["colors"] = analysis["colors"]`.
(lines 159–160). -/
def upd_colors (a : Analysis) : PyOpt (List String) :=
  match a.colors.getOpt with
  | some (c :: cs) => .val (c :: cs)
  | _ => .missing

/-- Comprehension `{k: v for k, v in analysis["materials"].items() if v}` (line 157):
the extracted materials restricted to truthy values. -/
def extract_materials (a : Analysis) : List (String × String) :=
  match a.materials.getOpt with
  | some l => l.filterMap (fun p => match p.2 with
      | some v => if v = "" then none else some (p.1, v)
      | none => none)
  | none => []

/-- Lines 155–158: when the extracted materials dict is truthy (non-empty),
`state.get("materials", {})` is merged with the truthy-filtered extraction
(`current_materials.update(...)`); crashes (`AttributeError`) when the state
holds `materials = None`. -/
def upd_materials (cur : Option (List (String × String))) (a : Analysis) :
    Except Unit (PyOpt (List (String × String))) :=
  match a.materials.getOpt with
  | some [] | none => .ok .missing
  | some (_ :: _) =>
    match cur with
    | none => .error ()
    | some current => .ok (.val (dictUpdate current (extract_materials a)))

/-- The `.ok` payload of `upd_materials (some cur) a` — what lines 155–158
write under the `materials` key when the state's materials dict is present. -/
def upd_materials_val (cur : List (String × String)) (a : Analysis) :
    PyOpt (List (String × String)) :=
  match a.materials.getOpt with
  | some [] | none => .missing
  | some (_ :: _) => .val (dictUpdate cur (extract_materials a))

/-- Source `_analyze_input` (lines 117–170).  The Reasoning-Service call is the
`analysis` oracle.  Each extracted field is written into the returned update
dict by the helper mirroring its source line; the keys are pairwise distinct,
so the sequential Python writes assemble into one record.  Finally (lines
164–168), when the classifier action is `generate` and no linear size is
known, the turn is marked as needing clarification with the fixed
linear-size question. -/
def analyze_input (st : KitchenState) (analysis : Analysis) :
    Except Unit StateUpdate :=
  match st.messages.getD [] with
  | none | some [] => .ok { error := .val "No message provided" }
  | some (_ :: _) =>
    match upd_materials (st.materials.getD []) analysis with
    | .error e => .error e
    | .ok matU =>
      let upd : StateUpdate :=
        { action := .ofOption (analysis.action.getD "respond"),
          needs_clarification := .val (decide (analysis.action.getOpt = some "clarification")),
          questions := .ofOption (analysis.questions_to_ask.getD []),
          linear_meters := upd_linear_meters analysis,
          shape := upd_str_field analysis.shape,
          style := upd_str_field analysis.style,
          materials := matU,
          colors := upd_colors analysis,
          budget := upd_str_field analysis.budget }
      -- if updates["action"] == "generate" and not updates.get("linear_meters")
      --    and not state.get("linear_meters")
      if analysis.action.getD "respond" = some "generate"
          ∧ truthyQ (upd_linear_meters analysis).getOpt = false
          ∧ truthyQ st.linear_meters.getOpt = false then
        .ok { upd with needs_clarification := .val true,
                       questions := .val ["¿Cuántos metros lineales tiene disponibles para su cocina?"] }
      else .ok upd

/-- The four branches of the conditional edge out of `analyze`
(`_build_graph`, lines 83–92). -/
inductive Branch where
  | clarify | generate | edit | respond
  deriving DecidableEq, Repr

/-- Source `_route_action` (lines 103–115). -/
def route_action (st : KitchenState) : Branch :=
  if truthyBool st.needs_clarification.getOpt then .clarify
  else
    match st.action.getD "respond" with
    | some "generate" => .generate
    | some "edit" => .edit
    | _ => .respond

/-- Source `shape_names` (lines 253–259). -/
def shape_names : List (String × String) :=
  [("I", "lineal"), ("L", "en L"), ("U", "en U"), ("G", "en G"),
   ("parallel", "paralela")]

/-- Source `_ask_clarification` (lines 172–206). -/
def ask_clarification (st : KitchenState) : StateUpdate :=
  let questions : List String :=
    match st.questions.getD [] with
    | some (q :: qs) => q :: qs
    | _ =>
      let missing : List String :=
        (if truthyQ st.linear_meters.getOpt then [] else ["metros lineales disponibles"])
          ++ (if truthyStr st.shape.getOpt then [] else ["configuración deseada (L, U, lineal, etc.)"])
          ++ (if truthyStr st.style.getOpt then [] else ["estilo preferido"])
      match missing with
      | [] => ["¿Podrías darme más detalles sobre lo que te gustaría modificar?"]
      | _ => ["Para crear tu diseño ideal, necesito saber: "
                ++ String.intercalate ", " missing
                ++ ". ¿Podrías proporcionarme esta información?"]
  let response_text := String.intercalate "\n" questions
  let response_text :=
    if truthyStr st.shape.getOpt then response_text
    else response_text
      ++ "\n\n**Configuraciones disponibles:**\n- **Lineal (I):** Ideal para espacios estrechos\n- **En L:** La más versátil, aprovecha esquinas\n- **En U:** Máximo almacenamiento, espacios amplios\n- **Paralela:** Perfecta para cocinas tipo pasillo\n"
  { response_text := .val response_text, artifacts := .val [] }

/-- Source `_generate_design` (lines 208–311).  `result` is the
`generate_kitchen_image` oracle outcome.  The failure branches (service
unsuccessful / zero images) return before any state-mutating key is set.
On the success path, a `None` stored under `design_version`, `materials`,
`colors` or `design_history` raises (`None + 1`, `None.get`, `join(None)`,
`None.append`), as does `_generate_specs` when `linear_meters` is `None` —
all modelled by `Except.error ()`. -/
def generate_design (st : KitchenState) (result : ImageResult) :
    Except Unit StateUpdate :=
  let linear_meters := st.linear_meters.getD (.dec 3 0)
  let shape := st.shape.getD "L"
  let style := st.style.getD "modern"
  let materials := st.materials.getD
    [("cabinets", "lacquered MDF"), ("countertop", "quartz"),
     ("backsplash", "ceramic tiles")]
  let colors := st.colors.getD ["white", "gray"]
  if !result.success then
    .ok { response_text := .val ("Lo siento, hubo un problema al generar la imagen: "
            ++ (result.error.getD "Error desconocido")
            ++ ". ¿Podrías intentarlo de nuevo?"),
          artifacts := .val [],
          error := .ofOption result.error }
  else
    match result.images with
    | [] =>
      .ok { response_text := .val "No se pudo generar la imagen. Por favor intenta de nuevo.",
            artifacts := .val [],
            error := .val "No images generated" }
    | image_base64 :: _ =>
      match st.design_version.getD 0, materials, colors, st.design_history.getD [] with
      | some v, some mats, some cols, some history =>
        let new_version := v + 1
        match generate_specs linear_meters shape style mats with
        | .error e => .error e
        | .ok specs =>
          let shape_display := match shape with
            | none => "None"
            | some s => (dictFind shape_names s).getD s
          let response_text := "## Diseño de Cocina - Versión " ++ toString new_version
            ++ "\n\nHe creado un diseño de cocina **" ++ pyShowOptStr style
            ++ "** con configuración **" ++ shape_display
            ++ "** de **" ++ pyShowOptQ linear_meters
            ++ " metros lineales**.\n\n### Características principales:\n- **Gabinetes:** "
            ++ dictGetD mats "cabinets" "MDF lacado"
            ++ "\n- **Cubierta:** " ++ dictGetD mats "countertop" "Cuarzo"
            ++ "\n- **Salpicadero:** " ++ dictGetD mats "backsplash" "Azulejo cerámico"
            ++ "\n- **Paleta de colores:** " ++ String.intercalate ", " cols
            ++ "\n\n¿Te gustaría hacer alguna modificación? Puedo ajustar colores, materiales, agregar o quitar elementos, cambiar el estilo, etc."
          .ok { response_text := .val response_text,
                artifacts := .val [
                  { type := "image",
                    title := "Diseño de Cocina v" ++ toString new_version,
                    image_data := some image_base64,
                    metadata := [("linear_meters", .num linear_meters),
                                 ("shape", .str shape), ("style", .str style),
                                 ("version", .nat new_version)] },
                  { type := "specs", title := "Especificaciones Técnicas",
                    content := some specs } ],
                current_image := .val image_base64,
                design_version := .val new_version,
                design_history := .val (history ++
                  [{ version := new_version, linear_meters := linear_meters,
                     shape := shape, style := style, materials := mats }]) }
      | _, _, _, _ => .error ()

/-- Source `_edit_design` (lines 313–374).  `edit_result` is the
`edit_kitchen_image` oracle outcome; `gen_result` is the
`generate_kitchen_image` outcome used if the node falls through to
`_generate_design`.  The free-text edit instructions from the last message
are passed only to the oracle and do not affect the modelled result.
Note the service-failure branch merely returns `action = "generate"` — it
does not call `_generate_design`; the zero-images branch does. -/
def edit_design (st : KitchenState) (edit_result gen_result : ImageResult) :
    Except Unit StateUpdate :=
  if !truthyStr st.current_image.getOpt then
    -- No current design, generate new one
    generate_design st gen_result
  else if !edit_result.success then
    -- If edit fails, try regenerating with modifications
    .ok { response_text := .val "Estoy regenerando el diseño con tus modificaciones...",
          artifacts := .val [],
          action := .val "generate" }
  else
    match edit_result.images with
    | [] => generate_design st gen_result
    | image_base64 :: _ =>
      match st.design_version.getD 0 with
      | none => .error ()
      | some v =>
        let new_version := v + 1
        .ok { response_text := .val ("## Diseño Actualizado - Versión " ++ toString new_version
                ++ "\n\nHe aplicado las modificaciones solicitadas al diseño. \n\n¿Qué te parece? Puedo seguir ajustando cualquier detalle que necesites."),
              artifacts := .val [
                { type := "image",
                  title := "Diseño de Cocina v" ++ toString new_version,
                  image_data := some image_base64,
                  metadata := [("version", .nat new_version), ("edit", .bool true)] } ],
              current_image := .val image_base64,
              design_version := .val new_version }

/-- Source `_generate_response` (lines 376–399).  `reply` is the
`GeminiReasoner.send_message` oracle outcome.  With no messages the fixed
greeting is returned (and the artifacts key is *not* set). -/
def generate_response (st : KitchenState) (reply : String) : StateUpdate :=
  match st.messages.getD [] with
  | none | some [] =>
    { response_text := .val "¡Hola! Soy KitchenMaster AI, tu experto en diseño de cocinas integrales. ¿En qué puedo ayudarte hoy?" }
  | some (_ :: _) => { response_text := .val reply, artifacts := .val [] }

/-- Source `_format_output` (lines 401–406). -/
def format_output (st : KitchenState) : StateUpdate :=
  { response_text := .ofOption (st.response_text.getD ""),
    artifacts := .ofOption (st.artifacts.getD []) }

/-! ## The graph (`_build_graph`, lines 66–101)

`analyze` is the entry point; a conditional edge routes to one of
`clarify`/`generate`/`edit`/`respond`; *every* branch has a single static
edge to `format_output`, which ends the turn. -/

/-- Oracle outcomes for one turn: the classifier record, the image-service
results for the (at most one) generate call and the (at most one) edit call,
and the conversational reply. -/
structure Oracles where
  analysis : Analysis
  gen_result : ImageResult
  edit_result : ImageResult
  reply : String
  deriving DecidableEq, Repr

/-- One turn of the compiled graph: analyze → route → branch →
format_output. -/
def run_graph (st : KitchenState) (o : Oracles) : Except Unit KitchenState := do
  let upd1 ← analyze_input st o.analysis
  let st1 := apply_update st upd1
  let upd2 ← match route_action st1 with
    | .clarify => pure (ask_clarification st1)
    | .generate => generate_design st1 o.gen_result
    | .edit => edit_design st1 o.edit_result o.gen_result
    | .respond => pure (generate_response st1 o.reply)
  let st2 := apply_update st1 upd2
  pure (apply_update st2 (format_output st2))

/-- The fresh state built by `run()` for a new conversation (lines 509–528):
*every* key is present, the optional design parameters hold `None`,
`materials`/`colors` hold empty containers, `design_version` holds `0`. -/
def initial_state : KitchenState :=
  { messages := .val [], linear_meters := .null, shape := .null, style := .null,
    materials := .val [], colors := .val [], budget := .null,
    current_image := .null, design_version := .val 0, design_history := .val [],
    action := .null, needs_clarification := .val false, questions := .val [],
    response_text := .val "", artifacts := .val [], error := .null }

/-- Source `run()` on a fresh conversation: build the initial state, append the
user message, invoke the graph. -/
def run_agent (user_message : String) (o : Oracles) : Except Unit KitchenState :=
  run_graph { initial_state with
    messages := .val [{ role := "user", content := user_message }] } o

/-! ## Concrete fixtures used by the theorems below -/

/-- A concrete materials dict. -/
def sample_materials : List (String × String) :=
  [("cabinets", "MDF blanco"), ("countertop", "granito"), ("backsplash", "azulejo")]

/-- The history entry of the first (successful) generation in the sample
conversation. -/
def hist1 : HistoryEntry :=
  { version := 1, linear_meters := some (.dec 4 0), shape := some "L",
    style := some "modern", materials := sample_materials }

/-- A mid-conversation state right after one successful generation:
`design_version = 1`, one history entry, a current image. -/
def st_v1 : KitchenState :=
  { initial_state with
    messages := .val [{ role := "user", content := "cambia el color a azul" }],
    linear_meters := .val (.dec 4 0), shape := .val "L", style := .val "modern",
    materials := .val sample_materials, colors := .val ["white", "blue"],
    current_image := .val "IMG0", design_version := .val 1,
    design_history := .val [hist1] }

/-- A successful image-generation result. -/
def ok_gen : ImageResult := { success := true, images := ["IMG1"] }

/-- A successful image-edit result. -/
def ok_edit : ImageResult := { success := true, images := ["IMG2"] }

/-- A failed image-service result. -/
def fail_edit : ImageResult :=
  { success := false, images := [], error := some "service unavailable" }

/-- A "success" image-service result carrying zero images. -/
def empty_edit : ImageResult := { success := true, images := [] }

/-- Oracles for an edit turn whose edit call succeeds. -/
def o_edit_ok : Oracles :=
  { analysis := { action := .val "edit" }, gen_result := ok_gen,
    edit_result := ok_edit, reply := "" }

/-- Oracles for an edit turn whose edit call fails. -/
def o_edit_fail : Oracles := { o_edit_ok with edit_result := fail_edit }

/-- Oracles for an edit turn whose edit call "succeeds" with zero images. -/
def o_edit_empty : Oracles := { o_edit_ok with edit_result := empty_edit }

/-- A premium-budget variant of the sample state (3.0 linear meters). -/
def st_premium : KitchenState :=
  { st_v1 with linear_meters := .val (.dec 3 0), budget := .val "premium" }

/-- Oracles for an edit turn, also used where only the classifier action
`edit` and a succeeding generate call matter. -/
def o_edit_fresh : Oracles :=
  { analysis := { action := .val "edit" }, gen_result := ok_gen,
    edit_result := ok_edit, reply := "" }

/-- Helper `optOr a b` is Python's `a if a is not None else b` on optionals —
used to state key-by-key dictionary merging. -/
def optOr (a b : Option α) : Option α :=
  match a with
  | some x => some x
  | none => b

/-! ## Basic lemmas -/

namespace PyOpt

@[simp] theorem merge_missing (st : PyOpt α) : merge .missing st = st := rfl

@[simp] theorem merge_null (st : PyOpt α) : merge .null st = .null := rfl

@[simp] theorem merge_val (a : α) (st : PyOpt α) : merge (.val a) st = .val a := rfl

@[simp] theorem getOpt_missing : (.missing : PyOpt α).getOpt = none := rfl

@[simp] theorem getOpt_null : (.null : PyOpt α).getOpt = none := rfl

@[simp] theorem getOpt_val (a : α) : (PyOpt.val a).getOpt = some a := rfl

@[simp] theorem getD_missing (d : α) : (.missing : PyOpt α).getD d = some d := rfl

@[simp] theorem getD_null (d : α) : (.null : PyOpt α).getD d = none := rfl

@[simp] theorem getD_val (a d : α) : (PyOpt.val a).getD d = some a := rfl

end PyOpt

theorem dictFind_nil (k : String) : dictFind ([] : List (String × α)) k = none := rfl

theorem dictFind_cons (x : String × α) (l : List (String × α)) (k : String) :
    dictFind (x :: l) k = if x.1 = k then some x.2 else dictFind l k := by
  by_cases hx : x.1 = k
  · simp [dictFind, List.find?_cons_of_pos, hx]
  · simp [dictFind, List.find?_cons_of_neg, hx]

theorem dictFind_append (l₁ l₂ : List (String × α)) (k : String) :
    dictFind (l₁ ++ l₂) k = optOr (dictFind l₁ k) (dictFind l₂ k) := by
  unfold dictFind
  rw [List.find?_append]
  cases l₁.find? (fun kv => kv.1 = k) <;> simp [optOr, Option.or]

theorem dictFind_map_update (base upd : List (String × α)) (k : String) :
    dictFind (base.map (fun kv => (kv.1, (dictFind upd kv.1).getD kv.2))) k
      = (base.find? (fun kv => kv.1 = k)).map
          (fun kv => (dictFind upd kv.1).getD kv.2) := by
  induction base with
  | nil => rfl
  | cons x xs ih =>
    by_cases hx : x.1 = k
    · rw [List.map_cons, dictFind_cons, List.find?_cons_of_pos _ (by simp [hx])]
      simp [hx]
    · rw [List.map_cons, dictFind_cons, List.find?_cons_of_neg _ (by simp [hx])]
      simp [hx, ih]

theorem dictFind_filter_of_none (base upd : List (String × α)) (k : String)
    (hb : dictFind base k = none) :
    dictFind (upd.filter (fun kv => (dictFind base kv.1).isNone)) k
      = dictFind upd k := by
  induction upd with
  | nil => rfl
  | cons x xs ih =>
    by_cases hx : x.1 = k
    · have hbx : dictFind base x.1 = none := by rw [hx]; exact hb
      rw [List.filter_cons, if_pos (by simp [hbx]), dictFind_cons,
        dictFind_cons, if_pos hx, if_pos hx]
    · by_cases hgx : (dictFind base x.1).isNone
      · rw [List.filter_cons, if_pos (by simp [hgx]), dictFind_cons,
          if_neg hx, dictFind_cons, if_neg hx, ih]
      · rw [List.filter_cons, if_neg (by simp_all), dictFind_cons, if_neg hx, ih]

/-- Python `base.update(upd)` merges key-by-key: a key takes the value from
`upd` when present there, otherwise keeps the value from `base`. -/
theorem dictFind_dictUpdate (base upd : List (String × α)) (k : String) :
    dictFind (dictUpdate base upd) k = optOr (dictFind upd k) (dictFind base k) := by
  unfold dictUpdate
  rw [dictFind_append, dictFind_map_update]
  cases hb : base.find? (fun kv => kv.1 = k) with
  | none =>
    have hbn : dictFind base k = none := by simp [dictFind, hb]
    rw [dictFind_filter_of_none base upd k hbn, hbn]
    cases dictFind upd k <;> simp [optOr]
  | some kv =>
    have hk : kv.1 = k := by simpa using List.find?_some hb
    have hbs : dictFind base k = some kv.2 := by simp [dictFind, hb]
    rw [hbs]
    simp only [Option.map]
    rw [hk]
    cases hu : dictFind upd k <;> simp [optOr, hu]

theorem upd_str_field_of_not_val (x : PyOpt String)
    (h : x = .null ∨ x = .missing) : upd_str_field x = .missing := by
  rcases h with h | h <;> rw [h] <;> rfl

theorem upd_str_field_ne_missing (x : PyOpt String)
    (h : upd_str_field x ≠ .missing) : ∃ s, x = .val s := by
  cases x with
  | missing => exact absurd rfl h
  | null => exact absurd rfl h
  | val s => exact ⟨s, rfl⟩

theorem upd_linear_meters_of_not_val (a : Analysis)
    (h : a.linear_meters = .null ∨ a.linear_meters = .missing) :
    upd_linear_meters a = .missing := by
  unfold upd_linear_meters
  rcases h with h | h <;> rw [h] <;> rfl

theorem upd_linear_meters_not_truthy (a : Analysis)
    (h : truthyQ a.linear_meters.getOpt = false) :
    upd_linear_meters a = .missing := by
  unfold upd_linear_meters
  cases ha : a.linear_meters.getOpt with
  | none => rfl
  | some q =>
    rw [ha] at h
    simp only [truthyQ, Bool.not_eq_false'] at h
    simp [h]

theorem upd_linear_meters_ne_missing (a : Analysis)
    (h : upd_linear_meters a ≠ .missing) : ∃ q, a.linear_meters = .val q := by
  unfold upd_linear_meters at h
  cases ha : a.linear_meters with
  | missing => rw [ha] at h; exact absurd rfl h
  | null => rw [ha] at h; exact absurd rfl h
  | val q => exact ⟨q, rfl⟩

theorem upd_colors_of_not_val (a : Analysis)
    (h : a.colors = .null ∨ a.colors = .missing) : upd_colors a = .missing := by
  unfold upd_colors
  rcases h with h | h <;> rw [h] <;> rfl

theorem upd_colors_ne_missing (a : Analysis)
    (h : upd_colors a ≠ .missing) : ∃ c, a.colors = .val c := by
  unfold upd_colors at h
  cases ha : a.colors with
  | missing => rw [ha] at h; exact absurd rfl h
  | null => rw [ha] at h; exact absurd rfl h
  | val c => exact ⟨c, rfl⟩

theorem upd_materials_val_of_not_val (cur : List (String × String)) (a : Analysis)
    (h : a.materials = .null ∨ a.materials = .missing) :
    upd_materials_val cur a = .missing := by
  unfold upd_materials_val
  rcases h with h | h <;> rw [h] <;> rfl

theorem upd_materials_val_ne_missing (cur : List (String × String)) (a : Analysis)
    (h : upd_materials_val cur a ≠ .missing) : ∃ m, a.materials = .val m := by
  unfold upd_materials_val at h
  cases ha : a.materials with
  | missing => rw [ha] at h; exact absurd rfl h
  | null => rw [ha] at h; exact absurd rfl h
  | val m => exact ⟨m, rfl⟩

theorem upd_materials_some (cur : List (String × String)) (a : Analysis) :
    upd_materials (some cur) a = .ok (upd_materials_val cur a) := by
  unfold upd_materials upd_materials_val
  cases h : a.materials.getOpt with
  | none => rfl
  | some l => cases l <;> rfl

theorem PyOpt.merge_ne_of_ne {u s : PyOpt α} (h : u.merge s ≠ s) :
    u ≠ .missing := by
  intro hu
  rw [hu] at h
  exact h rfl

theorem upd_materials_val_ne_null (cur : List (String × String)) (a : Analysis) :
    upd_materials_val cur a ≠ .null := by
  unfold upd_materials_val
  cases h : a.materials.getOpt with
  | none => simp
  | some l => cases l <;> simp

/-- Key-by-key description of the materials value written by the analyzer
against a present state dict. -/
theorem dictFind_upd_materials_val (cur : List (String × String)) (a : Analysis)
    (k : String) :
    dictFind (((upd_materials_val cur a).merge (.val cur)).getOpt.getD []) k
      = optOr (dictFind (extract_materials a) k) (dictFind cur k) := by
  unfold upd_materials_val
  cases ha : a.materials.getOpt with
  | none =>
    have he : extract_materials a = [] := by unfold extract_materials; rw [ha]
    simp [he, PyOpt.merge, PyOpt.getOpt, optOr, dictFind_nil]
  | some l =>
    cases l with
    | nil =>
      have he : extract_materials a = [] := by
        unfold extract_materials; rw [ha]; rfl
      simp [he, PyOpt.merge, PyOpt.getOpt, optOr, dictFind_nil]
    | cons kv kvs =>
      simp only [PyOpt.merge, PyOpt.getOpt, Option.getD]
      exact dictFind_dictUpdate cur (extract_materials a) k

/-- Reduction of `_analyze_input` on a non-empty message list and a present
materials dict: the update merged into the state carries exactly the
per-field helper values (the final needs-clarification override touches only
`needs_clarification` and `questions`). -/
theorem analyzed_fields (st : KitchenState) (a : Analysis) (m : Msg)
    (ms : List Msg) (hm : st.messages = .val (m :: ms))
    (curM : List (String × String)) (hmat : st.materials = .val curM) :
    ∃ st', (analyze_input st a).map (apply_update st) = .ok st' ∧
      st'.linear_meters = (upd_linear_meters a).merge st.linear_meters ∧
      st'.shape = (upd_str_field a.shape).merge st.shape ∧
      st'.style = (upd_str_field a.style).merge st.style ∧
      st'.budget = (upd_str_field a.budget).merge st.budget ∧
      st'.colors = (upd_colors a).merge st.colors ∧
      st'.materials = (upd_materials_val curM a).merge st.materials := by
  unfold analyze_input
  rw [hm, hmat]
  simp only [PyOpt.getD_val]
  rw [upd_materials_some]
  dsimp only []
  rw [apply_ite (Except.map (apply_update st))]
  dsimp only [Except.map]
  rw [← apply_ite Except.ok]
  refine ⟨_, rfl, ?_, ?_, ?_, ?_, ?_, ?_⟩ <;>
    simp [apply_update, apply_ite, ite_self, hmat]

/-! # Claims

Each claim of the specification audit is settled by exactly one theorem
below (plus a witness for theorems with hypotheses, and a counterexample
where the claim as stated fails on the code). -/

/-- Claim C7 (confirmed).  The module-packing algorithm on linear size 3.0m
allocates one sink module (0.9), one cooktop module (0.6), one refrigerator
module (0.6), one 0.6m storage module and zero 0.4m storage modules; on
1.0m it allocates only the sink module and zero storage modules. -/
theorem C7_module_packing_3m_and_1m :
    packModules (.dec 3 0) =
      { sink := 1, cooktop := 1, fridge := 1, storage60 := 1, storage40 := 0 } ∧
    packModules (.dec 1 0) =
      { sink := 1, cooktop := 0, fridge := 0, storage60 := 0, storage40 := 0 } ∧
    modulesList (packModules (.dec 3 0)) =
      ["1x Módulo fregadero (90cm)", "1x Módulo estufa/parrilla (60cm)",
       "1x Módulo refrigerador (60cm)", "1x Módulo almacenamiento (60cm)"] ∧
    modulesList (packModules (.dec 1 0)) = ["1x Módulo fregadero (90cm)"] := by
  refine ⟨?_, ?_, ?_, ?_⟩ <;> decide

/-- Claim C10 (code_bug).  Claimed: when no linear size is present in state the
Design Generator substitutes the default 3.0m and proceeds.  In the code,
`run()` initialises the `linear_meters` *key* to `None`, and
`state.get("linear_meters", 3.0)` returns the stored `None` — the 3.0
default applies only to an absent key.  On the reachable path (classifier
action `edit`, no current image, image call succeeds) the `None` flows into
`_generate_specs`, where `remaining >= 0.9` raises `TypeError`: the turn
crashes instead of reporting 3.0m artifacts. -/
theorem C10_generate_with_null_linear_meters_crashes :
    run_agent "Hazle cambios a mi cocina" o_edit_fresh = .error () ∧
    initial_state.linear_meters.getD (.dec 3 0) = none ∧
    (PyOpt.missing : PyOpt Frac).getD (.dec 3 0) = some (.dec 3 0) := by
  refine ⟨by decide, rfl, rfl⟩

/-- Claim C1 (counterexample).  Starting from a state where
`design_version == length(design_history)` holds (version 1, one entry), a
successful *edit* turn increments the version to 2 but appends no history
entry: afterwards `design_version = 2 ≠ 1 = length(design_history)`. -/
theorem C1_counterexample_edit_turn :
    (run_graph st_v1 o_edit_ok).map (fun st => (st.design_version, st.design_history))
      = .ok (.val 2, .val [hist1]) ∧
    [hist1].length = 1 ∧ (2 : ℕ) ≠ 1 := by
  refine ⟨by decide, rfl, by decide⟩

/-- Claim C1 (amended).  A successful generate appends exactly one history
entry while incrementing the version, so it preserves
`design_version == length(design_history)`; a successful edit increments the
version but appends *no* history entry (its returned update dict has no
`design_history` key), leaving `design_version = length(design_history) + 1`
— the claimed invariant holds after generate turns but fails after every
successful edit turn. -/
theorem C1_version_history_generate_vs_edit (st : KitchenState) (v : ℕ)
    (h : List HistoryEntry) (hv : st.design_version = .val v)
    (hh : st.design_history = .val h) (hinv : v = h.length) :
    (∀ r u, r.success = true → r.images ≠ [] →
      generate_design st r = .ok u →
      (apply_update st u).design_version = .val (h.length + 1) ∧
      ∃ e, (apply_update st u).design_history = .val (h ++ [e])) ∧
    (∀ er gr u, truthyStr st.current_image.getOpt = true →
      er.success = true → er.images ≠ [] →
      edit_design st er gr = .ok u →
      u.design_history = .missing ∧
      (apply_update st u).design_version = .val (h.length + 1) ∧
      (apply_update st u).design_history = .val h) := by
  constructor
  · intro r u hs hi hgen
    unfold generate_design at hgen
    rw [hs] at hgen
    cases himg : r.images with
    | nil => exact absurd himg hi
    | cons img rest =>
      rw [himg, hv, hh] at hgen
      simp only [Bool.not_true, Bool.false_eq_true, if_false, PyOpt.getD_val] at hgen
      cases hmat : st.materials.getD
          [("cabinets", "lacquered MDF"), ("countertop", "quartz"),
           ("backsplash", "ceramic tiles")] with
      | none => rw [hmat] at hgen; exact absurd hgen (by simp)
      | some mats =>
        rw [hmat] at hgen
        cases hcol : st.colors.getD ["white", "gray"] with
        | none => rw [hcol] at hgen; exact absurd hgen (by simp)
        | some cols =>
          rw [hcol] at hgen
          dsimp only [] at hgen
          cases hspec : generate_specs (st.linear_meters.getD (Frac.dec 3 0))
              (st.shape.getD "L") (st.style.getD "modern") mats with
          | error e => rw [hspec] at hgen; exact absurd hgen (by simp)
          | ok specs =>
            rw [hspec] at hgen
            injection hgen with hu
            subst hu
            refine ⟨by simp [apply_update, PyOpt.merge, hinv],
              ⟨{ version := v + 1,
                 linear_meters := st.linear_meters.getD (Frac.dec 3 0),
                 shape := st.shape.getD "L", style := st.style.getD "modern",
                 materials := mats }, ?_⟩⟩
            simp [apply_update, PyOpt.merge]
  · intro er gr u hcur hs hi hedit
    unfold edit_design at hedit
    rw [hcur, hs] at hedit
    cases himg : er.images with
    | nil => exact absurd himg hi
    | cons img rest =>
      rw [himg, hv] at hedit
      simp only [Bool.not_true, Bool.false_eq_true, if_false, PyOpt.getD_val] at hedit
      injection hedit with hu
      subst hu
      refine ⟨rfl, by simp [apply_update, PyOpt.merge, hinv], ?_⟩
      simp [apply_update, PyOpt.merge, hh]

/-- Claim C2 (code_bug).  Claimed: an edit turn with a current image whose
edit call fails, and one whose edit call "succeeds" with zero images, both
re-enter the Design Generator within the same turn and produce the same
outcome.  In the code the zero-images branch does call `_generate_design`,
but the failure branch only returns `{"action": "generate"}` with the text
"Estoy regenerando el diseño con tus modificaciones..." — and the graph has
a single static edge `edit → format_output`, so nothing re-enters the
generator: the two turns end differently (no version bump and no artifacts
on failure; a fresh generation on empty success). -/
theorem C2_edit_failure_is_not_rerouted :
    (run_graph st_v1 o_edit_fail).map
        (fun st => (st.response_text, st.artifacts, st.design_version, st.action))
      = .ok (.val "Estoy regenerando el diseño con tus modificaciones...", .val [],
             .val 1, .val "generate") ∧
    (run_graph st_v1 o_edit_empty).map (fun st => st.design_version) = .ok (.val 2) ∧
    (run_graph st_v1 o_edit_fail).map (fun st => (st.design_version, st.artifacts))
      ≠ (run_graph st_v1 o_edit_empty).map (fun st => (st.design_version, st.artifacts)) := by
  refine ⟨by decide, by decide, by decide⟩

/-- Claim C3 (counterexample).  With the state's budget tier set to `premium`,
the generate turn's specification artifact still shows the medium band
`$25,000 - $45,000 MXN` (not the premium band), and the whole generate
output is identical to the output with budget unset — the emitted band is
not selected by the budget tier. -/
theorem C3_counterexample_premium_budget_gets_medium_band :
    (generate_design st_premium ok_gen).map (fun u => u.artifacts)
      = (generate_design { st_premium with budget := .null } ok_gen).map (fun u => u.artifacts) ∧
    (generate_design st_premium ok_gen).map
        (fun u => u.artifacts.getOpt.map (fun l => l.map (fun (a : Artifact) => a.content)))
      = .ok (some [none, some "## Especificaciones Técnicas\n\n### Dimensiones\n- **Metros lineales:** 3.0m\n- **Configuración:** L\n- **Altura muebles bajos:** 85 cm\n- **Altura muebles altos:** 80 cm\n- **Profundidad muebles bajos:** 60 cm\n\n### Materiales\n- **Gabinetes:** MDF blanco\n- **Cubierta:** granito\n- **Salpicadero:** azulejo\n- **Herrajes:** Cierre suave, bisagras de 110°\n\n### Distribución de Módulos\n- 1x Módulo fregadero (90cm)\n- 1x Módulo estufa/parrilla (60cm)\n- 1x Módulo refrigerador (60cm)\n- 1x Módulo almacenamiento (60cm)\n\n### Electrodomésticos Sugeridos\n- Campana extractora\n- Estufa/Parrilla 4 quemadores\n- Horno empotrable (opcional)\n- Refrigerador\n- Microondas empotrable (opcional)\n- Lavavajillas (opcional)\n\n### Estimación de Inversión\nRango aproximado: $25,000 - $45,000 MXN\n\n*Nota: Los precios son aproximados y pueden variar según proveedor y ubicación.*"]) ∧
    dictFind cost_ranges "premium" = some "$80,000 - $150,000+ MXN" ∧
    ("$25,000 - $45,000 MXN" : String) ≠ "$80,000 - $150,000+ MXN" := by
  refine ⟨by decide, by decide, rfl, by decide⟩

/-- Claim C3 (amended).  The emitted cost-estimate section is always the fixed
medium band, whatever the budget tier: `_generate_specs` takes no budget
input and reads `cost_ranges['medium']` unconditionally, so the whole
generate output is invariant under any change of the state's budget. -/
theorem C3_cost_band_independent_of_budget (st : KitchenState) (b : PyOpt String)
    (r : ImageResult) :
    generate_design { st with budget := b } r = generate_design st r ∧
    dictFind cost_ranges "medium" = some "$25,000 - $45,000 MXN" := ⟨rfl, rfl⟩

/-- Claim C4 (counterexample).  A turn on the fresh state with an empty
message list is *not* rejected: the analyzer stores
`error = "No message provided"`, but routing proceeds to the converse
(`respond`) branch, which returns the fixed greeting with no artifacts. -/
theorem C4_counterexample_empty_messages_turn_proceeds :
    (run_graph initial_state o_edit_fresh).map
        (fun st => (st.response_text, st.artifacts, st.error))
      = .ok (.val "¡Hola! Soy KitchenMaster AI, tu experto en diseño de cocinas integrales. ¿En qué puedo ayudarte hoy?",
             .val [], .val "No message provided") ∧
    (analyze_input initial_state o_edit_fresh.analysis).map
        (fun u => route_action (apply_update initial_state u))
      = .ok .respond := by
  refine ⟨by decide, by decide⟩

/-- Claim C4 (amended).  On an empty message list the analyzer records the
explicit error `"No message provided"` and extracts nothing, but the turn is
not rejected: for *every* classifier/image/reply oracle outcome the turn
routes to the converse branch and ends with the fixed greeting, empty
artifacts, and the error merely stored in the state (the clarify, generate
and edit branches never run, and no oracle output influences the turn). -/
theorem C4_empty_messages_yields_greeting (a : Analysis) (g e : ImageResult)
    (r : String) :
    run_graph initial_state { analysis := a, gen_result := g, edit_result := e, reply := r }
      = .ok { initial_state with
              error := .val "No message provided",
              response_text := .val "¡Hola! Soy KitchenMaster AI, tu experto en diseño de cocinas integrales. ¿En qué puedo ayudarte hoy?" } ∧
    (analyze_input initial_state a).map
        (fun u => route_action (apply_update initial_state u))
      = .ok .respond := ⟨rfl, rfl⟩

/-- Claim C9 (counterexample).  Two calls of the technical-specification
algorithm with identical (linear size, materials, budget) — budget is not
even an input — but different shapes produce different documents, so
identical (linear size, materials, budget) alone do not guarantee
byte-identical output. -/
theorem C9_counterexample_shape_changes_output :
    generate_specs (some (.dec 3 0)) (some "L") (some "modern") sample_materials
      ≠ generate_specs (some (.dec 3 0)) (some "U") (some "modern") sample_materials := by
  decide

/-- Claim C9 (amended).  The technical-specification algorithm is
deterministic in (linear size, shape, materials): these three inputs fix the
document byte-for-byte — the remaining parameter `style` is ignored, and the
budget tier is not an input of the algorithm at all. -/
theorem C9_specs_deterministic_in_size_shape_materials
    (lm : Option Frac) (shape s1 s2 : Option String)
    (mats : List (String × String)) :
    generate_specs lm shape s1 mats = generate_specs lm shape s2 mats := rfl

/-- Claim C5 (confirmed).  The per-turn merge of extracted values into the
stored state is additive-only: a null/absent extracted field leaves the
stored value unchanged; a stored value changes only when the extraction
carries a (non-null) value; with stored `shape = L`, an extraction with
`shape = null` leaves `L` and one with `shape = U` sets `U`; materials are
merged key-by-key (each key takes the truthy-filtered extracted value when
present, otherwise keeps the stored value — never replaced wholesale). -/
theorem C5_additive_parameter_merge (st : KitchenState) (a : Analysis)
    (m : Msg) (ms : List Msg) (hm : st.messages = .val (m :: ms))
    (curM : List (String × String)) (hmat : st.materials = .val curM) :
    ∃ st', (analyze_input st a).map (apply_update st) = .ok st' ∧
      ((a.linear_meters = .null ∨ a.linear_meters = .missing) →
        st'.linear_meters = st.linear_meters) ∧
      ((a.shape = .null ∨ a.shape = .missing) → st'.shape = st.shape) ∧
      ((a.style = .null ∨ a.style = .missing) → st'.style = st.style) ∧
      ((a.colors = .null ∨ a.colors = .missing) → st'.colors = st.colors) ∧
      ((a.budget = .null ∨ a.budget = .missing) → st'.budget = st.budget) ∧
      ((a.materials = .null ∨ a.materials = .missing) →
        st'.materials = st.materials) ∧
      (st'.linear_meters ≠ st.linear_meters → ∃ q, a.linear_meters = .val q) ∧
      (st'.shape ≠ st.shape → ∃ s, a.shape = .val s) ∧
      (st'.style ≠ st.style → ∃ s, a.style = .val s) ∧
      (st'.colors ≠ st.colors → ∃ c, a.colors = .val c) ∧
      (st'.budget ≠ st.budget → ∃ b, a.budget = .val b) ∧
      (st'.materials ≠ st.materials → ∃ mm, a.materials = .val mm) ∧
      (st.shape = .val "L" → a.shape = .null → st'.shape = .val "L") ∧
      (a.shape = .val "U" → st'.shape = .val "U") ∧
      ((∃ m', st'.materials = .val m') ∧
        ∀ k, dictFind (st'.materials.getOpt.getD []) k
          = optOr (dictFind (extract_materials a) k) (dictFind curM k)) := by
  obtain ⟨st', hok, hlm, hsh, hsty, hbud, hcol, hmats⟩ :=
    analyzed_fields st a m ms hm curM hmat
  refine ⟨st', hok, ?_, ?_, ?_, ?_, ?_, ?_, ?_, ?_, ?_, ?_, ?_, ?_, ?_, ?_, ?_, ?_⟩
  · intro h; rw [hlm, upd_linear_meters_of_not_val a h, PyOpt.merge_missing]
  · intro h; rw [hsh, upd_str_field_of_not_val _ h, PyOpt.merge_missing]
  · intro h; rw [hsty, upd_str_field_of_not_val _ h, PyOpt.merge_missing]
  · intro h; rw [hcol, upd_colors_of_not_val _ h, PyOpt.merge_missing]
  · intro h; rw [hbud, upd_str_field_of_not_val _ h, PyOpt.merge_missing]
  · intro h
    rw [hmats, upd_materials_val_of_not_val curM a h, PyOpt.merge_missing, hmat]
  · intro hne
    refine upd_linear_meters_ne_missing a (fun hmiss => hne ?_)
    rw [hlm, hmiss, PyOpt.merge_missing]
  · intro hne
    refine upd_str_field_ne_missing a.shape (fun hmiss => hne ?_)
    rw [hsh, hmiss, PyOpt.merge_missing]
  · intro hne
    refine upd_str_field_ne_missing a.style (fun hmiss => hne ?_)
    rw [hsty, hmiss, PyOpt.merge_missing]
  · intro hne
    refine upd_colors_ne_missing a (fun hmiss => hne ?_)
    rw [hcol, hmiss, PyOpt.merge_missing]
  · intro hne
    refine upd_str_field_ne_missing a.budget (fun hmiss => hne ?_)
    rw [hbud, hmiss, PyOpt.merge_missing]
  · intro hne
    refine upd_materials_val_ne_missing curM a (fun hmiss => hne ?_)
    rw [hmats, hmiss, PyOpt.merge_missing]
  · intro hL hnull
    rw [hsh, upd_str_field_of_not_val _ (Or.inl hnull), PyOpt.merge_missing, hL]
  · intro hU
    rw [hsh, hU]
    rfl
  · rw [hmats, hmat]
    cases hv : upd_materials_val curM a with
    | missing => exact ⟨curM, rfl⟩
    | null => exact absurd hv (upd_materials_val_ne_null curM a)
    | val mm => exact ⟨mm, rfl⟩
  · intro k
    rw [hmats, hmat]
    exact dictFind_upd_materials_val curM a k

/-- Claim C5 (witness): the theorem applied to the sample state (stored
`shape = L`) with an extraction carrying `shape = U`, `style = null`. -/
theorem C5_witness :
    ∃ st', (analyze_input st_v1
        { shape := .val "U", style := .null, linear_meters := .null }).map
        (apply_update st_v1) = .ok st' ∧
      st'.shape = .val "U" ∧ st'.style = st_v1.style := by
  obtain ⟨st', hok, h1, h2, h3, h4, h5, h6, h7, h8, h9, h10, h11, h12, h13, h14, h15⟩ :=
    C5_additive_parameter_merge st_v1
      { shape := .val "U", style := .null, linear_meters := .null } _ _ rfl _ rfl
  exact ⟨st', hok, h14 rfl, h3 (Or.inl rfl)⟩

/-- Claim C6 (confirmed).  If the classifier marked the turn as needing
clarification (action `clarification`), the chosen branch is `clarify`
whatever the rest of the classifier output; and if the classifier action is
`generate` but no linear size is known (neither truthy-extracted this turn
nor truthy-stored), the turn is overridden to `clarify` with the fixed
single linear-size question. -/
theorem C6_clarification_precedence (st : KitchenState) (a : Analysis)
    (m : Msg) (ms : List Msg) (hm : st.messages = .val (m :: ms))
    (curM : List (String × String)) (hmat : st.materials = .val curM) :
    (a.action = .val "clarification" →
      ∃ st', (analyze_input st a).map (apply_update st) = .ok st' ∧
        route_action st' = .clarify) ∧
    (a.action = .val "generate" →
      truthyQ a.linear_meters.getOpt = false →
      truthyQ st.linear_meters.getOpt = false →
      ∃ st', (analyze_input st a).map (apply_update st) = .ok st' ∧
        route_action st' = .clarify ∧
        st'.questions = .val ["¿Cuántos metros lineales tiene disponibles para su cocina?"]) := by
  constructor
  · intro ha
    unfold analyze_input
    rw [hm, hmat]
    simp only [PyOpt.getD_val]
    rw [upd_materials_some]
    dsimp only []
    rw [apply_ite (Except.map (apply_update st))]
    dsimp only [Except.map]
    by_cases hc : (a.action.getD "respond" = some "generate"
        ∧ truthyQ (upd_linear_meters a).getOpt = false
        ∧ truthyQ st.linear_meters.getOpt = false)
    · rw [if_pos hc]
      refine ⟨_, rfl, ?_⟩
      simp [route_action, apply_update, PyOpt.merge, truthyBool, PyOpt.getOpt]
    · rw [if_neg hc]
      refine ⟨_, rfl, ?_⟩
      simp [route_action, apply_update, PyOpt.merge, truthyBool, PyOpt.getOpt, ha]
  · intro ha hqlm hslm
    unfold analyze_input
    rw [hm, hmat]
    simp only [PyOpt.getD_val]
    rw [upd_materials_some]
    dsimp only []
    rw [apply_ite (Except.map (apply_update st))]
    dsimp only [Except.map]
    have hc : (a.action.getD "respond" = some "generate"
        ∧ truthyQ (upd_linear_meters a).getOpt = false
        ∧ truthyQ st.linear_meters.getOpt = false) := by
      refine ⟨by rw [ha]; rfl, ?_, hslm⟩
      rw [upd_linear_meters_not_truthy a hqlm]
      rfl
    rw [if_pos hc]
    refine ⟨_, rfl, ?_, ?_⟩
    · simp [route_action, apply_update, PyOpt.merge, truthyBool, PyOpt.getOpt]
    · simp [apply_update, PyOpt.merge]

/-- Claim C6 (witness): the theorem applied to a fresh-state turn whose
classifier output is `action = generate` with no size anywhere. -/
theorem C6_witness :
    ∃ st', (analyze_input
        { initial_state with messages := .val [{ role := "user", content := "quiero una cocina" }] }
        { action := .val "generate" }).map
        (apply_update { initial_state with messages := .val [{ role := "user", content := "quiero una cocina" }] })
      = .ok st' ∧
      route_action st' = .clarify ∧
      st'.questions = .val ["¿Cuántos metros lineales tiene disponibles para su cocina?"] :=
  (C6_clarification_precedence
    { initial_state with messages := .val [{ role := "user", content := "quiero una cocina" }] }
    { action := .val "generate" } _ _ rfl _ rfl).2 rfl rfl rfl

/-- Claim C8 (confirmed).  When the Image Service reports failure or returns
zero images during a generate, the node returns one of the two apology
texts with an empty artifact list and the `error` key set, and it writes
none of `design_version`, `current_image`, `design_history` — so the merged
state keeps their prior values. -/
theorem C8_generate_failure_no_mutation (st : KitchenState) (r : ImageResult)
    (hfail : r.success = false ∨ r.images = []) :
    ∃ u, generate_design st r = .ok u ∧
      u.artifacts = .val [] ∧
      u.error ≠ .missing ∧
      u.design_version = .missing ∧
      u.current_image = .missing ∧
      u.design_history = .missing ∧
      (apply_update st u).design_version = st.design_version ∧
      (apply_update st u).current_image = st.current_image ∧
      (apply_update st u).design_history = st.design_history ∧
      (u.response_text = .val ("Lo siento, hubo un problema al generar la imagen: "
          ++ (r.error.getD "Error desconocido") ++ ". ¿Podrías intentarlo de nuevo?")
        ∨ u.response_text = .val "No se pudo generar la imagen. Por favor intenta de nuevo.") := by
  unfold generate_design
  rcases hfail with hf | hf
  · rw [hf]
    refine ⟨_, rfl, rfl, ?_, rfl, rfl, rfl, rfl, rfl, rfl, .inl rfl⟩
    cases r.error <;> simp [PyOpt.ofOption]
  · cases hs : r.success
    · refine ⟨_, rfl, rfl, ?_, rfl, rfl, rfl, rfl, rfl, rfl, .inl rfl⟩
      cases r.error <;> simp [PyOpt.ofOption]
    · rw [hf]
      refine ⟨_, rfl, rfl, by simp, rfl, rfl, rfl, rfl, rfl, rfl, .inr rfl⟩

/-- Claim C8 (witness): the theorem applied to the sample state and a concrete
failed image result. -/
theorem C8_witness :
    (fail_edit.success = false ∨ fail_edit.images = []) ∧
    ∃ u, generate_design st_v1 fail_edit = .ok u ∧ u.artifacts = .val [] := by
  refine ⟨Or.inl rfl, ?_⟩
  obtain ⟨u, h1, h2, -⟩ := C8_generate_failure_no_mutation st_v1 fail_edit (Or.inl rfl)
  exact ⟨u, h1, h2⟩

/-- Claim C1 (witness): the amended theorem applied to the concrete sample
state and a successful edit result. -/
theorem C1_witness :
    ∃ u, edit_design st_v1 ok_edit ok_gen = .ok u ∧
      (apply_update st_v1 u).design_version = .val 2 ∧
      (apply_update st_v1 u).design_history = .val [hist1] := by
  have := (C1_version_history_generate_vs_edit st_v1 1 [hist1] rfl rfl rfl).2
    ok_edit ok_gen
  cases hu : edit_design st_v1 ok_edit ok_gen with
  | error e => cases e; exact absurd hu (by decide)
  | ok u =>
    obtain ⟨-, h2, h3⟩ := this u (by decide) rfl (by decide) hu
    exact ⟨u, rfl, h2, h3⟩

